import Mathlib

/-!
Verification of the reliable remote-invocation pipeline of the
IntegrationTestFramework / DelegateMQ repository.

The C++ sources are shallowly embedded as executable Lean definitions:

* wire framing: `Dispatcher.Dispatch` (src/DelegateMQ/predef/dispatcher/Dispatcher.h),
  `SerialTransport.Send` / `SerialTransport.Receive`
  (src/DelegateMQ/predef/transport/serial/SerialTransport.h),
  `Stm32UartTransport.Send` / `Stm32UartTransport.Receive`
  (src/DelegateMQ/predef/transport/stm32-uart/Stm32UartTransport.h);
* engine demultiplexing: `NetworkEngine.Incoming`, `NetworkEngine.Start`
  (src/DelegateMQ/predef/util/NetworkEngine.cpp);
* worker-thread loops: `Thread.Run`, `Thread.DispatchDelegate`
  (src/DelegateMQ/predef/os/freertos/Thread.cpp) and `Logger.Process`
  (src/Logger/src/Logger.cpp).

Machine integers are modelled as `Nat` with explicit `% 2^16` / `% 2^8`
reductions where the C++ code truncates.  Byte streams are `List Nat`
(each element a byte value).  Blocking reads that time out correspond to
running off the end of the stream.

The repository headers `DmqHeader.h`, `crc16.h` and the delegate
invocation layer are referenced by the sources but are not part of the
source set; the definitions standing in for them are explicitly marked
`Modelled from the spec:` below.
-/

/-- Two to the sixteenth, the modulus of every `uint16_t` computation. -/
def U16 : Nat := 65536

/-- Big-endian serialization of a 16-bit value, as produced by `swap16` /
`to_net` before a 2-byte `write` in `SerialTransport::Send` and
`Stm32UartTransport::Send` (high byte first). -/
def be16 (v : Nat) : List Nat := [v / 256 % 256, v % 256]

/-- Little-endian (host byte order on the x86 / Cortex-M targets)
serialization of a 16-bit value, as produced by writing a `uint16_t`
through `reinterpret_cast` or `memcpy` with no swap. -/
def le16 (v : Nat) : List Nat := [v % 256, v / 256 % 256]

/-- Modelled from the spec: `crc16.h` (function `Crc16CalcBlock`) is not
under src/.  The spec fixes only that a 16-bit CRC is computed over
header and payload; the concrete step below is the standard CCITT
polynomial-0x1021, MSB-first update.  All claims depend only on the CRC
being a per-byte left fold with a 16-bit state, matching the
`Crc16CalcBlock(buffer, length, seed)` chaining convention of the
callers. -/
def Crc16Update (crc b : Nat) : Nat :=
  let start := (Nat.xor crc ((b % 256) * 256)) % U16
  (List.range 8).foldl
    (fun c _ => if 32768 ≤ c then (Nat.xor (c * 2) 4129) % U16 else (c * 2) % U16)
    start

/-- Modelled from the spec: `Crc16CalcBlock(buf, len, seed)` folds
`Crc16Update` over the buffer starting from the seed. -/
def Crc16CalcBlock (bytes : List Nat) (seed : Nat) : Nat :=
  bytes.foldl Crc16Update seed

/-- Modelled from the spec: `DmqHeader.h` is not under src/.  Per spec §3,
the wire header is a fixed 2-byte marker, a 16-bit destination id, a
16-bit sequence number and a 16-bit payload length.  The marker constant
is `0xAA55`: both Receive implementations synchronize on the byte
sequence `0xAA 0x55` (big-endian `0xAA55`) and compare against
`DmqHeader::MARKER`. -/
structure DmqHeader where
  marker : Nat := 43605
  id : Nat := 0
  seqNum : Nat := 0
  len : Nat := 0
deriving DecidableEq, Repr

namespace DmqHeader

/-- The fixed header marker `0xAA55`. -/
def MARKER : Nat := 43605

/-- The serialized header size in bytes (four 16-bit fields). -/
def HEADER_SIZE : Nat := 8

end DmqHeader

/-- Modelled from the spec: the reserved acknowledgment destination id
(`dmq::ACK_REMOTE_ID`, declared in a header not under src/).  Spec §6:
one reserved destination id is exclusively for acknowledgments.  The
claims depend only on it being one fixed id. -/
def ACK_REMOTE_ID : Nat := 65535

/-- The frame layout asserted by the specification (spec §6 wire format):
big-endian marker, destination id, sequence number and payload length,
then the payload, then the 2-byte CRC-16 computed over header plus
payload.  Written from the words of the spec for comparison against the
frames the embedded send operations actually construct. -/
def specWireFrame (id seq : Nat) (payload : List Nat) : List Nat :=
  let headerBytes :=
    be16 DmqHeader.MARKER ++ be16 id ++ be16 seq ++ be16 payload.length
  headerBytes ++ payload ++ le16 (Crc16CalcBlock (headerBytes ++ payload) 65535)

/-- The byte stream `Dispatcher::Dispatch` builds in its stringstream
(src/DelegateMQ/predef/dispatcher/Dispatcher.h lines 42-57): the 16-bit
marker, destination id and sequence number, each written through
`reinterpret_cast<const char*>` in host byte order (little-endian on the
supported targets), followed directly by the argument payload.  No
payload-length field and no CRC are written. -/
def dispatchFrame (id seq : Nat) (payload : List Nat) : List Nat :=
  le16 DmqHeader.MARKER ++ le16 id ++ le16 seq ++ payload

namespace Dispatcher

/-- `Dispatcher::Dispatch` (Dispatcher.h lines 40-65).  The configured
transport is `m_transport`, modelled as an optional send function from
frame bytes to a status.  Returns the status the caller sees paired with
the list of frames handed to `ITransport::Send` (empty when no transport
is configured, a single frame otherwise; the dispatcher never re-sends). -/
def Dispatch (transport : Option (List Nat → Int)) (id seq : Nat)
    (payload : List Nat) : Int × List (List Nat) :=
  match transport with
  | some send => (send (dispatchFrame id seq payload), [dispatchFrame id seq payload])
  | none => (-1, [])

end Dispatcher

/-- Modelled from the spec: `DmqHeader::GetNextSeqNum` lives in the
missing `DmqHeader.h`.  Spec §4.2 and §8: `Dispatch` allocates the next
sequence number by incrementing the engine-wide 16-bit counter, wrapping
at the 16-bit boundary.  `dispatchSeq s0 n` is the sequence number
allocated by the n-th `Dispatch` call when the counter started at `s0`. -/
def dispatchSeq (s0 n : Nat) : Nat := (s0 + n) % U16

/-- Observable effects of one transport `Send`: the status returned, the
bytes placed on the wire, and the `(seqNum, id)` pairs passed to
`ITransportMonitor::Add`. -/
structure SendEff where
  status : Int
  wire : List Nat
  monitorAdds : List (Nat × Nat)
deriving DecidableEq, Repr

namespace SerialTransport

/-- `SerialTransport::Send` (SerialTransport.h lines 86-129).
`portOpen` models `m_port != nullptr`, `hasMonitor` models
`m_transportMonitor != nullptr`, `writeOk` models `sp_blocking_write`
accepting the whole packet.  The monitor `Add` happens before the port
write, exactly when the id is not the ACK id and a monitor is attached. -/
def Send (portOpen hasMonitor writeOk : Bool) (header : DmqHeader)
    (payload : List Nat) : SendEff :=
  if ¬ portOpen then ⟨-1, [], []⟩
  else if 65535 < payload.length then ⟨-1, [], []⟩
  else
    let packetNoCrc :=
      be16 header.marker ++ be16 header.id ++ be16 header.seqNum ++
        be16 payload.length ++ payload
    let crc := Crc16CalcBlock packetNoCrc 65535
    let adds :=
      if header.id ≠ ACK_REMOTE_ID ∧ hasMonitor then [(header.seqNum, header.id)]
      else []
    ⟨if writeOk then 0 else -1, packetNoCrc ++ le16 crc, adds⟩

end SerialTransport

namespace Stm32UartTransport

/-- `Stm32UartTransport::Send` (Stm32UartTransport.h lines 132-180) on
the path where every `HAL_UART_Transmit` succeeds.  `created` models
`m_huart && m_mutex`, `hasMonitor` models `m_transportMonitor`.  The
payload length is truncated to 16 bits by the `(uint16_t)` cast at line
142; the CRC is chained over header then payload (lines 171-172) and
written in host byte order. -/
def Send (created hasMonitor : Bool) (header : DmqHeader)
    (payload : List Nat) : SendEff :=
  if ¬ created then ⟨-1, [], []⟩
  else
    let packet :=
      be16 header.marker ++ be16 header.id ++ be16 header.seqNum ++
        be16 (payload.length % U16)
    let crc := Crc16CalcBlock payload (Crc16CalcBlock packet 65535)
    let adds :=
      if header.id ≠ ACK_REMOTE_ID ∧ hasMonitor then [(header.seqNum, header.id)]
      else []
    ⟨0, packet ++ payload ++ le16 crc, adds⟩

end Stm32UartTransport

/-- Read exactly `n` bytes from the stream (`ReadExact` /
`ReadByteBlocked` loops).  `none` models the blocking read timing out or
erroring before `n` bytes arrived. -/
def readBytes (n : Nat) (s : List Nat) : Option (List Nat × List Nat) :=
  if s.length < n then none else some (s.take n, s.drop n)

/-- Observable effects of one transport `Receive`: the decoded header and
payload on success, the sequence numbers passed to
`ITransportMonitor::Remove`, and the `(header, payload)` pairs passed to
the send transport as automatic ACK replies. -/
structure RecvEff where
  result : Option (DmqHeader × List Nat)
  removes : List Nat
  acks : List (DmqHeader × List Nat)
deriving DecidableEq, Repr

/-- A `Receive` attempt that delivers nothing and has no side effect. -/
def recvFail : RecvEff := ⟨none, [], []⟩

namespace SerialTransport

/-- The strict sync loop of `SerialTransport::Receive` (lines 138-154):
scan for a `0xAA` byte, then read one more byte and accept only `0x55`;
a non-matching second byte is consumed and scanning resumes after it.
Returns the stream following the two marker bytes, or `none` when the
stream ends first (the port read times out). -/
def sync : List Nat → Option (List Nat)
  | 170 :: 85 :: r => some r
  | 170 :: _ :: r => sync r
  | _ :: r => sync r
  | [] => none

/-- The decode phase of `SerialTransport::Receive` (lines 131-190): sync,
read the remaining six header bytes, deserialize big-endian, check the
marker, check the declared length against `BUFFER_SIZE` (4096), read the
payload, read the 2-byte CRC (host byte order) and compare it with the
CRC recomputed over header and payload.  `none` is the `-1` drop path. -/
def decode (stream : List Nat) : Option (DmqHeader × List Nat) :=
  match sync stream with
  | none => none
  | some r1 =>
    match readBytes 6 r1 with
    | none => none
    | some (hb, r2) =>
      let headerBuf := 170 :: 85 :: hb
      let marker := 170 * 256 + 85
      let id := hb.getD 0 0 * 256 + hb.getD 1 0
      let seq := hb.getD 2 0 * 256 + hb.getD 3 0
      let len := hb.getD 4 0 * 256 + hb.getD 5 0
      if marker ≠ DmqHeader.MARKER then none
      else if 4096 < len then none
      else
        match readBytes len r2 with
        | none => none
        | some (payload, r3) =>
          match readBytes 2 r3 with
          | none => none
          | some (cb, _) =>
            let receivedCrc := cb.getD 0 0 + cb.getD 1 0 * 256
            let calcCrc := Crc16CalcBlock payload (Crc16CalcBlock headerBuf 65535)
            if receivedCrc ≠ calcCrc then none
            else some (⟨marker, id, seq, len⟩, payload)

/-- `SerialTransport::Receive` (lines 131-204).  After a successful
decode, an ACK-tagged frame clears its sequence number from the monitor
and is never answered; any other frame is answered through the send
transport with a zero-payload ACK echoing its sequence number (lines
192-203).  `recvSelf` models the `m_recvTransport == this` guard. -/
def Receive (portOpen recvSelf hasMonitor hasSend : Bool)
    (stream : List Nat) : RecvEff :=
  if ¬ portOpen ∨ ¬ recvSelf then recvFail
  else
    match decode stream with
    | none => recvFail
    | some (header, payload) =>
      if header.id = ACK_REMOTE_ID then
        ⟨some (header, payload), if hasMonitor then [header.seqNum] else [], []⟩
      else
        ⟨some (header, payload), [],
          if hasSend then
            [({ id := ACK_REMOTE_ID, seqNum := header.seqNum }, [])]
          else []⟩

end SerialTransport

namespace Stm32UartTransport

/-- The sync loop of `Stm32UartTransport::Receive` (lines 192-198): scan
for a single byte equal to the high marker byte `0xAA`; the following
seven bytes are taken as the rest of the header unconditionally. -/
def sync : List Nat → Option (List Nat)
  | 170 :: r => some r
  | _ :: r => sync r
  | [] => none

/-- The decode phase of `Stm32UartTransport::Receive` (lines 185-229):
sync on `0xAA`, read seven more header bytes, deserialize big-endian,
check the marker, check the declared length against `BUFFER_SIZE` (512),
read the payload, then read the two CRC bytes.  The received CRC is
consumed but never compared against a recomputed value: no CRC check
exists on this path. -/
def decode (stream : List Nat) : Option (DmqHeader × List Nat) :=
  match sync stream with
  | none => none
  | some r1 =>
    match readBytes 7 r1 with
    | none => none
    | some (hb, r2) =>
      let marker := 170 * 256 + hb.getD 0 0
      let id := hb.getD 1 0 * 256 + hb.getD 2 0
      let seq := hb.getD 3 0 * 256 + hb.getD 4 0
      let len := hb.getD 5 0 * 256 + hb.getD 6 0
      if marker ≠ DmqHeader.MARKER then none
      else if 512 < len then none
      else
        match readBytes len r2 with
        | none => none
        | some (payload, r3) =>
          match readBytes 2 r3 with
          | none => none
          | some (_, _) => some (⟨marker, id, seq, len⟩, payload)

/-- `Stm32UartTransport::Receive` (lines 185-244).  ACK handling as in
the serial transport, except that the automatic ACK reply additionally
requires a transport monitor to be attached (line 235). -/
def Receive (recvSelf hasMonitor hasSend : Bool) (stream : List Nat) : RecvEff :=
  if ¬ recvSelf then recvFail
  else
    match decode stream with
    | none => recvFail
    | some (header, payload) =>
      if header.id = ACK_REMOTE_ID then
        ⟨some (header, payload), if hasMonitor then [header.seqNum] else [], []⟩
      else
        ⟨some (header, payload), [],
          if hasMonitor ∧ hasSend then
            [({ id := ACK_REMOTE_ID, seqNum := header.seqNum }, [])]
          else []⟩

end Stm32UartTransport

namespace NetworkEngine

/-- One entry of `m_receiveIdMap`: a destination id mapped to a target
whose flag records whether the stored `IRemoteInvoker*` is non-null (the
`it->second` check in `Incoming`).  `std::map` keys are unique; lookup is
modelled by the first matching entry of the association list. -/
abbrev Registry := List (Nat × Bool)

/-- `NetworkEngine::Incoming` (NetworkEngine.cpp lines 280-292).  Returns
`some (id, payload)` exactly when a registered endpoint is invoked with
the payload: ACK-tagged frames are filtered out, then the destination id
is looked up in the registry and the target invoked only if an entry is
found and its pointer is non-null.  No other action is taken: an unknown
or null id produces no invocation and no error report. -/
def Incoming (registry : Registry) (id : Nat) (payload : List Nat) :
    Option (Nat × List Nat) :=
  if id ≠ ACK_REMOTE_ID then
    match registry.find? (fun e => e.1 == id) with
    | some (_, true) => some (id, payload)
    | _ => none
  else none

/-- The engine thread handling a queue of decoded inbound frames one
`Incoming` call after another; the loop never stops on an unhandled
frame, so processing a frame list is the concatenation of the per-frame
invocations. -/
def processFrames (registry : Registry) (frames : List (Nat × List Nat)) :
    List (Nat × List Nat) :=
  frames.filterMap (fun f => Incoming registry f.1 f.2)

/-- Process-wide state relevant to `NetworkEngine::Start` and
`NetworkEngine::Stop`: the function-local `static bool bRecvThreadCreated`
(shared by every `NetworkEngine` instance in the process), the number of
receive threads ever created, and whether the 100 ms timeout timer is
running. -/
structure StartState where
  recvThreadCreated : Bool
  createCount : Nat
  timerRunning : Bool
deriving DecidableEq, Repr

/-- The state before any `Start` was ever called: the function-local
static is false and no receive thread exists. -/
def initState : StartState := ⟨false, 0, false⟩

/-- `NetworkEngine::Start` (NetworkEngine.cpp lines 176-194): create and
launch the receive thread only when the static flag is still false, then
in every case connect and start the 100 ms timeout timer. -/
def Start (s : StartState) : StartState :=
  if s.recvThreadCreated then { s with timerRunning := true }
  else ⟨true, s.createCount + 1, true⟩

/-- `NetworkEngine::Stop` (NetworkEngine.cpp lines 196-212): stops the
timeout timer; the static creation flag is not reset. -/
def Stop (s : StartState) : StartState := { s with timerRunning := false }

/-- A call against the engine lifecycle: `Start` or `Stop` (on any
`NetworkEngine` instance of the process). -/
inductive EngineOp
  | start
  | stop
deriving DecidableEq, Repr

/-- Run a sequence of lifecycle calls. -/
def runOps (s : StartState) : List EngineOp → StartState
  | [] => s
  | .start :: rest => runOps (Start s) rest
  | .stop :: rest => runOps (Stop s) rest

end NetworkEngine

/-- A message in a worker-thread queue, after
src/DelegateMQ/predef/os/freertos/Thread.cpp.  `dispatchDelegate`
carries the marshaled work item (identified by a number) together with
the null-checks `Run` performs on the carried `DelegateMsg` and its
invoker; `nullMsg` models a null `ThreadMsg*` popped from the queue
(line 191); `otherMsg` is any other id (the `default` branch). -/
inductive ThreadMsg
  | nullMsg
  | dispatchDelegate (work : Nat) (hasData hasInvoker : Bool)
  | exitThread
  | otherMsg (id : Nat)
deriving DecidableEq, Repr

namespace Thread

/-- `Thread::Run` (Thread.cpp lines 184-219) applied to the sequence of
messages the queue delivers, in FIFO order.  Returns the work items
actually invoked (in execution order) and whether the loop returned
through the `MSG_EXIT_THREAD` branch.  On `MSG_EXIT_THREAD` the loop
deletes the message, signals the exit semaphore and returns at once:
nothing after it is popped. -/
def Run : List ThreadMsg → List Nat × Bool
  | [] => ([], false)
  | .nullMsg :: rest => Run rest
  | .dispatchDelegate w hasData hasInvoker :: rest =>
    let r := Run rest
    ((if hasData ∧ hasInvoker then [w] else []) ++ r.1, r.2)
  | .exitThread :: _ => ([], true)
  | .otherMsg _ :: rest => Run rest

/-- `Thread::DispatchDelegate` (Thread.cpp lines 146-171).  `cap` is the
queue capacity fixed at `xQueueCreate`; when the queue holds `cap`
messages the bounded 10 ms `xQueueSend` wait elapses, the freshly
allocated `ThreadMsg` is deleted and nothing is enqueued.  Returns the
queue after the call and whether the message was enqueued. -/
def DispatchDelegate (queueCreated : Bool) (cap : Nat) (q : List ThreadMsg)
    (msg : ThreadMsg) : List ThreadMsg × Bool :=
  if ¬ queueCreated then (q, false)
  else if cap ≤ q.length then (q, false)
  else (q ++ [msg], true)

end Thread

/-- Modelled from the spec: the delegate invocation layer that turns a
cross-thread call into a `DispatchDelegate` enqueue and reports its
outcome is not under src/.  Spec §7(f): when the bounded enqueue wait
elapses the failure is reported as an invocation failure to the caller.
The report is modelled as successful exactly when the work item was
executed by the destination thread. -/
def marshalReport (executed : List Nat) (w : Nat) : Bool :=
  decide (w ∈ executed)

/-- A message in the Logger worker-thread queue
(src/Logger/src/Logger.cpp): the four ids placed on the queue by
`Write`, `TimerThread`, `DispatchDelegate` and `ExitThread`. -/
inductive LoggerMsg
  | writeMsg (data : Nat)
  | timerMsg
  | dispatchDelegate (work : Nat)
  | exitThread
deriving DecidableEq, Repr

/-- An observable action of `Logger::Process`: a log write, a flush, or a
delegate invocation. -/
inductive LoggerAction
  | logWrite (data : Nat)
  | flush
  | invoke (work : Nat)
deriving DecidableEq, Repr

namespace Logger

/-- `Logger::Process` (Logger.cpp lines 177-257) applied to the FIFO
message sequence.  Returns the actions performed in order and whether the
loop returned through the `MSG_EXIT_THREAD` branch, which joins the
timer thread and returns immediately. -/
def Process : List LoggerMsg → List LoggerAction × Bool
  | [] => ([], false)
  | .writeMsg d :: rest =>
    let r := Process rest
    (.logWrite d :: r.1, r.2)
  | .timerMsg :: rest =>
    let r := Process rest
    (.flush :: r.1, r.2)
  | .dispatchDelegate w :: rest =>
    let r := Process rest
    (.invoke w :: r.1, r.2)
  | .exitThread :: _ => ([], true)

end Logger

/-! ## Theorems -/

section FramingClaims

/-- C1, counterexample.  The claim asserts that every frame built by
`Dispatcher::Dispatch` carries the 8-byte big-endian header, the
payload-length field and the trailing CRC-16.  The frame `Dispatch`
actually hands to the transport for destination id 1, sequence number 0
and an empty payload is the 6-byte stream `[0x55, 0xAA, 1, 0, 0, 0]`
(host-order marker, id, sequence number, nothing else), not the 10-byte
frame the claim prescribes. -/
theorem dispatch_frame_not_spec_wire_frame :
    (Dispatcher.Dispatch (some fun _ => 0) 1 0 []).2 = [dispatchFrame 1 0 []] ∧
      dispatchFrame 1 0 [] ≠ specWireFrame 1 0 [] := by
  exact ⟨rfl, by decide⟩

/-- C1, amended.  Every frame placed on the wire by
`SerialTransport::Send` or `Stm32UartTransport::Send` — for a header
carrying the fixed marker and a payload of at most 65535 bytes — is the
8-byte big-endian header (marker, destination id, sequence number,
payload length), followed by exactly payload-length payload bytes,
followed by the 2-byte CRC-16 computed over header and payload.
`Dispatcher::Dispatch`, by contrast, emits a 6-byte header of marker,
destination id and sequence number in host byte order, followed directly
by the payload, with no length field and no CRC. -/
theorem send_wire_frame_layout (hdr : DmqHeader) (payload : List Nat)
    (hm wok : Bool) (hmark : hdr.marker = DmqHeader.MARKER)
    (hlen : payload.length ≤ 65535) :
    (SerialTransport.Send true hm wok hdr payload).wire
        = specWireFrame hdr.id hdr.seqNum payload
      ∧ (Stm32UartTransport.Send true hm hdr payload).wire
        = specWireFrame hdr.id hdr.seqNum payload
      ∧ ∀ (f : List Nat → Int) (id seq : Nat) (p : List Nat),
          (Dispatcher.Dispatch (some f) id seq p).2
            = [le16 DmqHeader.MARKER ++ le16 id ++ le16 seq ++ p] := by
  refine ⟨?_, ?_, fun f id seq p => rfl⟩
  · simp [SerialTransport.Send, specWireFrame, hmark, Nat.not_lt.mpr hlen]
  · have hmod : payload.length % U16 = payload.length :=
      Nat.mod_eq_of_lt (by simp only [U16]; omega)
    simp [Stm32UartTransport.Send, specWireFrame, hmark, hmod,
      Crc16CalcBlock, List.foldl_append]

/-- C1, witness for `send_wire_frame_layout` at marker-carrying header
(id 1, sequence 7) and payload `[0x63]`. -/
theorem send_wire_frame_layout_witness :
    (SerialTransport.Send true true true ⟨DmqHeader.MARKER, 1, 7, 0⟩ [99]).wire
        = specWireFrame 1 7 [99]
      ∧ (Stm32UartTransport.Send true true ⟨DmqHeader.MARKER, 1, 7, 0⟩ [99]).wire
        = specWireFrame 1 7 [99]
      ∧ ∀ (f : List Nat → Int) (id seq : Nat) (p : List Nat),
          (Dispatcher.Dispatch (some f) id seq p).2
            = [le16 DmqHeader.MARKER ++ le16 id ++ le16 seq ++ p] :=
  send_wire_frame_layout ⟨DmqHeader.MARKER, 1, 7, 0⟩ [99] true true rfl (by decide)

set_option maxRecDepth 100000 in
/-- C2.  The byte stream below is a complete frame for destination id 1,
sequence number 7 and the single payload byte `0x63`, whose trailing
CRC field (`7, 24` in host order) differs by one from the CRC-16
recomputed over header and payload (`7, 23`).  `SerialTransport::Receive`
drops it, but `Stm32UartTransport::Receive` consumes the CRC bytes
without comparing them: it accepts the corrupted frame and even answers
it with an ACK, contradicting the claim (and the transport's own header
comment promising CRC verification for every packet). -/
theorem stm32_receive_accepts_bad_crc :
    Crc16CalcBlock [170, 85, 0, 1, 0, 7, 0, 1, 99] 65535 ≠ 7 + 24 * 256
      ∧ (SerialTransport.Receive true true true true
          [170, 85, 0, 1, 0, 7, 0, 1, 99, 7, 24]).result = none
      ∧ (Stm32UartTransport.Receive true true true
          [170, 85, 0, 1, 0, 7, 0, 1, 99, 7, 24]).result
        = some (⟨DmqHeader.MARKER, 1, 7, 1⟩, [99])
      ∧ (Stm32UartTransport.Receive true true true
          [170, 85, 0, 1, 0, 7, 0, 1, 99, 7, 24]).acks
        = [({ id := ACK_REMOTE_ID, seqNum := 7 }, [])] := by
  refine ⟨by decide, by decide, by decide, by decide⟩

/-- C3.  Sequence numbers allocated by one Dispatcher across successive
`Dispatch` calls: the (m+1)-th number is the m-th plus one modulo 65536,
and no number is reused before wraparound — any two calls fewer than
65536 apart allocate distinct numbers. -/
theorem dispatch_seq_strictly_increasing (s0 m n : Nat) (hmn : m < n)
    (hwin : n - m < U16) :
    dispatchSeq s0 (m + 1) = (dispatchSeq s0 m + 1) % U16
      ∧ dispatchSeq s0 m ≠ dispatchSeq s0 n := by
  constructor
  · simp only [dispatchSeq, Nat.mod_add_mod]
    ring_nf
  · intro heq
    simp only [dispatchSeq] at heq
    have hdvd : U16 ∣ (s0 + n) - (s0 + m) :=
      (Nat.modEq_iff_dvd' (by omega)).mp heq
    have hsub : (s0 + n) - (s0 + m) = n - m := by omega
    rw [hsub] at hdvd
    have := Nat.le_of_dvd (by omega) hdvd
    omega

/-- C3, witness for `dispatch_seq_strictly_increasing`: the first two
sequence numbers from a fresh counter differ and follow each other. -/
theorem dispatch_seq_strictly_increasing_witness :
    dispatchSeq 0 1 = (dispatchSeq 0 0 + 1) % U16 ∧ dispatchSeq 0 0 ≠ dispatchSeq 0 1 :=
  dispatch_seq_strictly_increasing 0 0 1 (by decide) (by decide)

end FramingClaims

section AckClaims

/-- A successful `SerialTransport::Receive` means the decode phase
succeeded on the stream. -/
theorem serial_receive_result_some (stream : List Nat) (hdr : DmqHeader)
    (payload : List Nat) (pm ps : Bool)
    (hrecv : (SerialTransport.Receive true true pm ps stream).result
      = some (hdr, payload)) :
    SerialTransport.decode stream = some (hdr, payload) := by
  unfold SerialTransport.Receive at hrecv
  simp only [Bool.not_true, or_self, if_false, Bool.false_eq_true] at hrecv
  cases hdec : SerialTransport.decode stream with
  | none =>
    rw [hdec] at hrecv
    exact absurd hrecv (by simp [recvFail])
  | some hp =>
    obtain ⟨h, p⟩ := hp
    rw [hdec] at hrecv
    by_cases hid : h.id = ACK_REMOTE_ID <;> simp_all

/-- The effects of a successful `SerialTransport::Receive` with monitor
and send transport attached, as a function of the decoded header. -/
theorem serial_receive_of_decode (stream : List Nat) (hdr : DmqHeader)
    (payload : List Nat)
    (hdec : SerialTransport.decode stream = some (hdr, payload)) :
    SerialTransport.Receive true true true true stream
      = if hdr.id = ACK_REMOTE_ID then
          ⟨some (hdr, payload), [hdr.seqNum], []⟩
        else
          ⟨some (hdr, payload), [],
            [({ id := ACK_REMOTE_ID, seqNum := hdr.seqNum }, [])]⟩ := by
  unfold SerialTransport.Receive
  rw [hdec]
  by_cases hid : hdr.id = ACK_REMOTE_ID <;> simp [hid]

/-- C4.  Acknowledgment bookkeeping of the serial transport, with the
transport monitor and send transport wired up as `Initialize` leaves
them.  For every successfully received frame: a zero-payload ACK echoing
the frame's sequence number is sent back exactly when the frame's
destination id is not the ACK id; an ACK frame instead clears the
pending record for its echoed sequence number and produces no reply.
And `Send` registers a frame with the transport monitor exactly when the
frame's destination id is not the ACK id — ACK frames are never
registered, hence never timed out or retried. -/
theorem serial_ack_handling (stream : List Nat) (hdr : DmqHeader)
    (payload : List Nat) (hdr2 : DmqHeader) (p2 : List Nat)
    (hrecv : (SerialTransport.Receive true true true true stream).result
      = some (hdr, payload))
    (hlen : p2.length ≤ 65535) :
    ((SerialTransport.Receive true true true true stream).acks ≠ []
        ↔ hdr.id ≠ ACK_REMOTE_ID)
      ∧ (hdr.id ≠ ACK_REMOTE_ID →
          (SerialTransport.Receive true true true true stream).acks
              = [({ id := ACK_REMOTE_ID, seqNum := hdr.seqNum }, [])]
            ∧ (SerialTransport.Receive true true true true stream).removes = [])
      ∧ (hdr.id = ACK_REMOTE_ID →
          (SerialTransport.Receive true true true true stream).removes
              = [hdr.seqNum]
            ∧ (SerialTransport.Receive true true true true stream).acks = [])
      ∧ ((SerialTransport.Send true true true hdr2 p2).monitorAdds ≠ []
          ↔ hdr2.id ≠ ACK_REMOTE_ID)
      ∧ (hdr2.id ≠ ACK_REMOTE_ID →
          (SerialTransport.Send true true true hdr2 p2).monitorAdds
            = [(hdr2.seqNum, hdr2.id)]) := by
  have hdec := serial_receive_result_some stream hdr payload true true hrecv
  have heff := serial_receive_of_decode stream hdr payload hdec
  by_cases hid : hdr.id = ACK_REMOTE_ID <;>
    by_cases hid2 : hdr2.id = ACK_REMOTE_ID <;>
      simp [heff, hid, hid2, SerialTransport.Send, Nat.not_lt.mpr hlen]

set_option maxRecDepth 100000 in
/-- C4, witness for `serial_ack_handling`: the stream is the exact wire
frame for id 1, sequence 7, payload `[0x63]`, which decodes
successfully; the sent frame has id 2, sequence 9. -/
theorem serial_ack_handling_witness :
    ((SerialTransport.Receive true true true true
        [170, 85, 0, 1, 0, 7, 0, 1, 99, 7, 23]).acks ≠ [] ↔ (1 : Nat) ≠ ACK_REMOTE_ID)
      ∧ ((1 : Nat) ≠ ACK_REMOTE_ID →
          (SerialTransport.Receive true true true true
              [170, 85, 0, 1, 0, 7, 0, 1, 99, 7, 23]).acks
              = [({ id := ACK_REMOTE_ID, seqNum := 7 }, [])]
            ∧ (SerialTransport.Receive true true true true
                [170, 85, 0, 1, 0, 7, 0, 1, 99, 7, 23]).removes = [])
      ∧ ((1 : Nat) = ACK_REMOTE_ID →
          (SerialTransport.Receive true true true true
              [170, 85, 0, 1, 0, 7, 0, 1, 99, 7, 23]).removes = [7]
            ∧ (SerialTransport.Receive true true true true
                [170, 85, 0, 1, 0, 7, 0, 1, 99, 7, 23]).acks = [])
      ∧ ((SerialTransport.Send true true true ⟨DmqHeader.MARKER, 2, 9, 0⟩ [5]).monitorAdds ≠ []
          ↔ (2 : Nat) ≠ ACK_REMOTE_ID)
      ∧ ((2 : Nat) ≠ ACK_REMOTE_ID →
          (SerialTransport.Send true true true ⟨DmqHeader.MARKER, 2, 9, 0⟩ [5]).monitorAdds
            = [(9, 2)]) :=
  serial_ack_handling [170, 85, 0, 1, 0, 7, 0, 1, 99, 7, 23]
    ⟨DmqHeader.MARKER, 1, 7, 1⟩ [99] ⟨DmqHeader.MARKER, 2, 9, 0⟩ [5]
    (by decide) (by decide)

end AckClaims

section EngineClaims

/-- C5.  `NetworkEngine::Incoming` never invokes an endpoint for an
ACK-tagged frame; for a destination id absent from the endpoint registry
it invokes nothing and the engine processes the remaining frames exactly
as if the frame had not arrived; for an id present in the registry (and
different from the ACK id) the registered target is invoked with the
payload exactly when the stored endpoint pointer is non-null. -/
theorem incoming_dispatch (reg : NetworkEngine.Registry) (id : Nat)
    (payload : List Nat) (rest : List (Nat × List Nat)) :
    NetworkEngine.Incoming reg ACK_REMOTE_ID payload = none
      ∧ ((∀ e ∈ reg, e.1 ≠ id) →
          NetworkEngine.Incoming reg id payload = none
            ∧ NetworkEngine.processFrames reg ((id, payload) :: rest)
              = NetworkEngine.processFrames reg rest)
      ∧ (∀ b : Bool, reg.find? (fun e => e.1 == id) = some (id, b) →
          id ≠ ACK_REMOTE_ID →
          (NetworkEngine.Incoming reg id payload = some (id, payload) ↔ b = true)) := by
  refine ⟨by simp [NetworkEngine.Incoming], ?_, ?_⟩
  · intro habsent
    have hfind : reg.find? (fun e => e.1 == id) = none := by
      rw [List.find?_eq_none]
      intro e he
      simpa using habsent e he
    have hnone : NetworkEngine.Incoming reg id payload = none := by
      unfold NetworkEngine.Incoming
      rw [hfind]
      simp
    refine ⟨hnone, ?_⟩
    simp [NetworkEngine.processFrames, hnone]
  · intro b hfind hid
    unfold NetworkEngine.Incoming
    rw [if_pos hid, hfind]
    cases b <;> simp

/-- C5, witness for `incoming_dispatch` on the registry mapping id 2 to
a live endpoint: a frame addressed to the unregistered id 99 invokes no
target and leaves the processing of the following frame unchanged, and a
frame addressed to id 2 invokes the registered endpoint. -/
theorem incoming_dispatch_witness :
    (NetworkEngine.Incoming [(2, true)] 99 [5] = none
        ∧ NetworkEngine.processFrames [(2, true)] [(99, [5]), (2, [7])]
          = NetworkEngine.processFrames [(2, true)] [(2, [7])])
      ∧ (NetworkEngine.Incoming [(2, true)] 2 [7] = some (2, [7]) ↔ True) := by
  refine ⟨(incoming_dispatch [(2, true)] 99 [5] [(2, [7])]).2.1 (by decide), ?_⟩
  have h := (incoming_dispatch [(2, true)] 2 [7] []).2.2 true (by decide) (by decide)
  simpa using h

/-- C6.  `Dispatcher::Dispatch` returns `-1` without handing anything to
a transport when none is configured; with a transport configured it
hands the built frame to the transport exactly once and returns whatever
status the transport's `Send` produced — a failed send comes back to the
caller and triggers no second `Send`. -/
theorem dispatch_status (id seq : Nat) (payload : List Nat)
    (f : List Nat → Int) :
    Dispatcher.Dispatch none id seq payload = (-1, [])
      ∧ Dispatcher.Dispatch (some f) id seq payload
        = (f (dispatchFrame id seq payload), [dispatchFrame id seq payload]) :=
  ⟨rfl, rfl⟩

end EngineClaims

section ThreadClaims

/-- `Thread::Run` never pops past an exit message: the loop outcome on
any trace equals the outcome on the trace truncated right after the
first exit message. -/
theorem thread_run_stops_at_exit (pre post : List ThreadMsg) :
    Thread.Run (pre ++ ThreadMsg.exitThread :: post)
      = Thread.Run (pre ++ [ThreadMsg.exitThread]) := by
  induction pre with
  | nil => rfl
  | cons m pre ih => cases m <;> simp [Thread.Run, ih]

/-- `Thread::Run` reaches the `MSG_EXIT_THREAD` branch whenever an exit
message is in the trace. -/
theorem thread_run_exits (pre post : List ThreadMsg) :
    (Thread.Run (pre ++ ThreadMsg.exitThread :: post)).2 = true := by
  induction pre with
  | nil => rfl
  | cons m pre ih => cases m <;> simp [Thread.Run, ih]

/-- `Logger::Process` never pops past an exit message. -/
theorem logger_process_stops_at_exit (pre post : List LoggerMsg) :
    Logger.Process (pre ++ LoggerMsg.exitThread :: post)
      = Logger.Process (pre ++ [LoggerMsg.exitThread]) := by
  induction pre with
  | nil => rfl
  | cons m pre ih => cases m <;> simp [Logger.Process, ih]

/-- `Logger::Process` reaches the `MSG_EXIT_THREAD` branch whenever an
exit message is in the trace. -/
theorem logger_process_exits (pre post : List LoggerMsg) :
    (Logger.Process (pre ++ LoggerMsg.exitThread :: post)).2 = true := by
  induction pre with
  | nil => rfl
  | cons m pre ih => cases m <;> simp [Logger.Process, ih]

/-- C7.  For both worker loops — `Thread::Run` (FreeRTOS) and
`Logger::Process` — popping an exit control message terminates the loop
at that message: the loop behaves exactly as if the queue had ended with
the exit message, so work items still in the queue behind it, or queued
after it, are never executed by that thread. -/
theorem exit_message_terminates_loop (pre post : List ThreadMsg)
    (lpre lpost : List LoggerMsg) :
    Thread.Run (pre ++ ThreadMsg.exitThread :: post)
        = Thread.Run (pre ++ [ThreadMsg.exitThread])
      ∧ (Thread.Run (pre ++ ThreadMsg.exitThread :: post)).2 = true
      ∧ Logger.Process (lpre ++ LoggerMsg.exitThread :: lpost)
        = Logger.Process (lpre ++ [LoggerMsg.exitThread])
      ∧ (Logger.Process (lpre ++ LoggerMsg.exitThread :: lpost)).2 = true :=
  ⟨thread_run_stops_at_exit pre post, thread_run_exits pre post,
    logger_process_stops_at_exit lpre lpost, logger_process_exits lpre lpost⟩

end ThreadClaims

section MarshalClaims

/-- A work item is executed by `Thread::Run` only if a dispatch message
carrying it (with live data and invoker) was in the trace. -/
theorem thread_run_executed_mem (l : List ThreadMsg) (w : Nat)
    (hw : w ∈ (Thread.Run l).1) :
    ThreadMsg.dispatchDelegate w true true ∈ l := by
  induction l with
  | nil => simp [Thread.Run] at hw
  | cons m l ih =>
    cases m with
    | nullMsg =>
      simp only [Thread.Run] at hw
      exact List.mem_cons_of_mem _ (ih hw)
    | dispatchDelegate w2 hasData hasInvoker =>
      by_cases hlive : hasData = true ∧ hasInvoker = true
      · obtain ⟨hd, hi⟩ := hlive
        subst hd
        subst hi
        simp [Thread.Run] at hw
        rcases hw with hw | hw
        · subst hw
          exact List.mem_cons_self _ _
        · exact List.mem_cons_of_mem _ (ih hw)
      · have hw2 : w ∈ (Thread.Run l).1 := by
          simp [Thread.Run, if_neg hlive] at hw
          exact hw
        exact List.mem_cons_of_mem _ (ih hw2)
    | exitThread => simp [Thread.Run] at hw
    | otherMsg id =>
      simp only [Thread.Run] at hw
      exact List.mem_cons_of_mem _ (ih hw)

/-- C8.  When `Thread::DispatchDelegate` finds the destination queue full
and the bounded `xQueueSend` wait elapses, the freshly allocated message
is released and nothing is enqueued: the queue is unchanged, the work
item never executes on the destination thread (for any continuation of
the queue that does not independently resubmit it), and the marshal
outcome reported for the call is failure. -/
theorem queue_full_marshal_fails (cap : Nat) (q post : List ThreadMsg) (w : Nat)
    (hfull : cap ≤ q.length)
    (hfresh : ThreadMsg.dispatchDelegate w true true ∉ q ++ post) :
    Thread.DispatchDelegate true cap q (ThreadMsg.dispatchDelegate w true true)
        = (q, false)
      ∧ w ∉ (Thread.Run (q ++ post)).1
      ∧ marshalReport (Thread.Run (q ++ post)).1 w = false := by
  refine ⟨by simp [Thread.DispatchDelegate, hfull], ?_, ?_⟩
  · intro hw
    exact hfresh (thread_run_executed_mem _ w hw)
  · simp only [marshalReport, decide_eq_false_iff_not]
    intro hw
    exact hfresh (thread_run_executed_mem _ w hw)

/-- C8, witness for `queue_full_marshal_fails`: a queue of capacity 1
already holding one message rejects work item 7; the item never runs and
the report is failure. -/
theorem queue_full_marshal_fails_witness :
    Thread.DispatchDelegate true 1 [ThreadMsg.dispatchDelegate 5 true true]
        (ThreadMsg.dispatchDelegate 7 true true)
        = ([ThreadMsg.dispatchDelegate 5 true true], false)
      ∧ 7 ∉ (Thread.Run ([ThreadMsg.dispatchDelegate 5 true true]
          ++ [ThreadMsg.exitThread])).1
      ∧ marshalReport (Thread.Run ([ThreadMsg.dispatchDelegate 5 true true]
          ++ [ThreadMsg.exitThread])).1 7 = false :=
  queue_full_marshal_fails 1 [ThreadMsg.dispatchDelegate 5 true true]
    [ThreadMsg.exitThread] 7 (by decide) (by decide)

end MarshalClaims

section LifecycleClaims

/-- `NetworkEngine::Start` and `NetworkEngine::Stop` preserve the
function-local static creation flag once set, and the number of receive
threads ever created equals one exactly when a `Start` has run with the
flag initially clear. -/
theorem runOps_create_count (ops : List NetworkEngine.EngineOp)
    (s : NetworkEngine.StartState) :
    (NetworkEngine.runOps s ops).createCount
        = s.createCount +
          (if s.recvThreadCreated = false ∧ NetworkEngine.EngineOp.start ∈ ops
            then 1 else 0) := by
  induction ops generalizing s with
  | nil => simp [NetworkEngine.runOps]
  | cons op rest ih =>
    cases op with
    | start =>
      by_cases hs : s.recvThreadCreated = true
      · have h1 := ih (NetworkEngine.Start s)
        simp [NetworkEngine.runOps, NetworkEngine.Start, hs] at h1 ⊢
        exact h1
      · have hs2 : s.recvThreadCreated = false := by
          simpa using hs
        have h1 := ih (NetworkEngine.Start s)
        simp [NetworkEngine.runOps, NetworkEngine.Start, hs2] at h1 ⊢
        exact h1
    | stop =>
      have h1 := ih (NetworkEngine.Stop s)
      simp [NetworkEngine.runOps, NetworkEngine.Stop] at h1 ⊢
      exact h1

/-- C9.  Starting from a fresh process, any sequence of `Start` and
`Stop` calls — on any engine instances, in any order — creates the
receive thread exactly once if a `Start` occurs at all and never
otherwise, because creation is guarded by the function-local static
flag; and a `Start` that finds the flag already set only restarts the
timeout timer, leaving every other part of the state unchanged. -/
theorem start_creates_recv_thread_once (ops : List NetworkEngine.EngineOp)
    (s : NetworkEngine.StartState) :
    (NetworkEngine.runOps NetworkEngine.initState ops).createCount
        = (if NetworkEngine.EngineOp.start ∈ ops then 1 else 0)
      ∧ (s.recvThreadCreated = true →
          NetworkEngine.Start s = { s with timerRunning := true }) := by
  constructor
  · have h := runOps_create_count ops NetworkEngine.initState
    simpa [NetworkEngine.initState] using h
  · intro hs
    simp [NetworkEngine.Start, hs]

/-- C9, witness for `start_creates_recv_thread_once`: the sequence
Start, Stop, Start creates one receive thread, and a `Start` on an
already-created state only turns the timer on. -/
theorem start_creates_recv_thread_once_witness :
    (NetworkEngine.runOps NetworkEngine.initState
        [NetworkEngine.EngineOp.start, NetworkEngine.EngineOp.stop,
          NetworkEngine.EngineOp.start]).createCount
        = (if NetworkEngine.EngineOp.start ∈
            [NetworkEngine.EngineOp.start, NetworkEngine.EngineOp.stop,
              NetworkEngine.EngineOp.start] then 1 else 0)
      ∧ NetworkEngine.Start ⟨true, 1, false⟩
        = { NetworkEngine.StartState.mk true 1 false with timerRunning := true } :=
  ⟨(start_creates_recv_thread_once
      [NetworkEngine.EngineOp.start, NetworkEngine.EngineOp.stop,
        NetworkEngine.EngineOp.start] ⟨true, 1, false⟩).1,
    (start_creates_recv_thread_once [] ⟨true, 1, false⟩).2 rfl⟩

end LifecycleClaims

section OversizeClaims

/-- C10.  `SerialTransport::Send` called with a payload longer than
65535 bytes returns `-1` before doing anything else: no byte is written
to the serial port and no pending record is added to the transport
monitor. -/
theorem serial_send_oversize_payload (hm wok : Bool) (hdr : DmqHeader)
    (payload : List Nat) (hbig : 65535 < payload.length) :
    SerialTransport.Send true hm wok hdr payload
      = { status := -1, wire := [], monitorAdds := [] } := by
  simp [SerialTransport.Send, hbig]

/-- C10, witness for `serial_send_oversize_payload` on a 65536-byte
payload. -/
theorem serial_send_oversize_payload_witness :
    SerialTransport.Send true true true ⟨DmqHeader.MARKER, 1, 2, 0⟩
        (List.replicate 65536 0)
      = { status := -1, wire := [], monitorAdds := [] } :=
  serial_send_oversize_payload true true ⟨DmqHeader.MARKER, 1, 2, 0⟩
    (List.replicate 65536 0) (by simp only [List.length_replicate]; omega)

end OversizeClaims
